import Mathlib

/-!
# Load average sampler (pdh/main.cpp)

A shallow embedding of `calc_loadf`, `calc_load` and the registry tick
`CalculateLoadReg` of `pdh/main.cpp`, with the properties of the exponential
decaying average, of the grow-and-retry loop and of the counter lookup.

Conventions of the embedding:
* `double` arithmetic is exact arithmetic in a field (`ℚ` for the running
  state, any field for `calc_loadf`), as the properties are stated over exact
  arithmetic;
* `DWORD` values are natural numbers, reduced modulo `2 ^ 32` where the code
  computes with them;
* pointers into the performance data buffer are byte offsets from `pPerfData`;
* `RegQueryValueExW` and `realloc` are answers of the environment.
-/

namespace LoadAvg

/-! ## Constants (main.cpp 49-52) -/

/-- The decimal literal of `LOADAVG_FACTOR_1F`. -/
def LOADAVG_FACTOR_1F : ℚ := 9200444146293232478931553241 / 10000000000000000000000000000

/-- The decimal literal of `LOADAVG_FACTOR_5F`. -/
def LOADAVG_FACTOR_5F : ℚ := 9834714538216174894737477501 / 10000000000000000000000000000

/-- The decimal literal of `LOADAVG_FACTOR_15F`. -/
def LOADAVG_FACTOR_15F : ℚ := 9944598480048967508795473395 / 10000000000000000000000000000

/-- The value of type `double` (IEEE 754 binary64, rounding to nearest) of the
literal of `LOADAVG_FACTOR_1F`. -/
def LOADAVG_FACTOR_1F_binary64 : ℚ := 8287023365777853 / 2 ^ 53

/-- The value of type `double` of the literal of `LOADAVG_FACTOR_5F`. -/
def LOADAVG_FACTOR_5F_binary64 : ℚ := 8858323345921113 / 2 ^ 53

/-- The value of type `double` of the literal of `LOADAVG_FACTOR_15F`. -/
def LOADAVG_FACTOR_15F_binary64 : ℚ := 8957298001819546 / 2 ^ 53

/-- The sample rate in seconds, `LOADAVG_SAMPLE_RATE`. -/
def LOADAVG_SAMPLE_RATE : ℕ := 5

/-! ## The averaging step (main.cpp 61-76) -/

/-- The function `calc_loadf` (main.cpp 61-65): `load * exp + active * (1.0 - exp)`. -/
def calc_loadf {K : Type} [Field K] (load exp active : K) : K :=
  load * exp + active * (1 - exp)

/-- The statement `CALC_LOAD(n, f, r)` (main.cpp 67) with `n` the element `i`
of the array: `(n) = calc_loadf((n), (f), (r))`. -/
def CALC_LOAD (average : Fin 3 → ℚ) (i : Fin 3) (f r : ℚ) : Fin 3 → ℚ :=
  Function.update average i (calc_loadf (average i) f r)

/-- The sequence `s 0 = p`, `s (n + 1) = calc_loadf (s n) d o` of averages fed
with the constant observation `o`. -/
def loadSeq {K : Type} [Field K] (p d o : K) : ℕ → K
  | 0 => p
  | n + 1 => calc_loadf (loadSeq p d o n) d o

/-! ## The running state (main.cpp 54-58) -/

/-- The contents of memory seen from `pPerfData`: the byte stored at each
byte offset. -/
abbrev Mem := ℕ → ℕ

/-- The structure `LOADAVG_DATA`: the three averages, the recorded capacity
`cbPerfData` of the buffer and the buffer `pPerfData` itself. -/
structure LOADAVG_DATA where
  average : Fin 3 → ℚ
  cbPerfData : ℕ
  pPerfData : Mem

/-- The function `calc_load` (main.cpp 69-76): the three `CALC_LOAD`
statements in turn, `dwRunning` converted to `double`. -/
def calc_load (pLoadData : LOADAVG_DATA) (dwRunning : ℕ) : LOADAVG_DATA :=
  let a0 := CALC_LOAD pLoadData.average 0 LOADAVG_FACTOR_1F dwRunning
  let a1 := CALC_LOAD a0 1 LOADAVG_FACTOR_5F dwRunning
  let a2 := CALC_LOAD a1 2 LOADAVG_FACTOR_15F dwRunning
  { pLoadData with average := a2 }

/-! ## The performance data layout (winperf.h) -/

/-- The field offsets and the entry size that `CalculateLoadReg` takes from
the header winperf.h, which the translation unit includes: the layout is a
parameter of the embedding. -/
structure WinperfLayout where
  /-- The offset of `HeaderLength` in `PERF_DATA_BLOCK`. -/
  blockHeaderLength : ℕ
  /-- The offset of `HeaderLength` in `PERF_OBJECT_TYPE`. -/
  objectHeaderLength : ℕ
  /-- The offset of `DefinitionLength` in `PERF_OBJECT_TYPE`. -/
  objectDefinitionLength : ℕ
  /-- The offset of `CounterNameTitleIndex` in `PERF_COUNTER_DEFINITION`. -/
  counterNameTitleIndex : ℕ
  /-- The offset of `CounterOffset` in `PERF_COUNTER_DEFINITION`. -/
  counterOffset : ℕ
  /-- The size of `PERF_COUNTER_DEFINITION`, the step of `pCounter++`. -/
  sizeofCounterDefinition : ℕ

/-- The layout of the Windows SDK header winperf.h. -/
def winperf : WinperfLayout where
  blockHeaderLength := 24
  objectHeaderLength := 8
  objectDefinitionLength := 4
  counterNameTitleIndex := 4
  counterOffset := 36
  sizeofCounterDefinition := 40

/-- The little-endian `DWORD` stored at byte offset `p`. -/
def readDWORD (m : Mem) (p : ℕ) : ℕ :=
  m p % 256 + 256 * (m (p + 1) % 256) + 65536 * (m (p + 2) % 256)
    + 16777216 * (m (p + 3) % 256)

/-- The status `ERROR_SUCCESS`. -/
def ERROR_SUCCESS : ℤ := 0

/-- The status `ERROR_MORE_DATA`. -/
def ERROR_MORE_DATA : ℤ := 234

/-! ## The environment of one tick -/

/-- The answers of the environment during one tick. The first argument of
each is the number of the pass through the grow-and-retry loop. -/
structure Env where
  /-- The call `RegQueryValueExW(HKEY_PERFORMANCE_DATA, L"2", ..., pPerfData,
  &cbData)`: from the capacity passed and the buffer, the status returned and
  the buffer after the call. -/
  RegQueryValueExW : ℕ → ℕ → Mem → ℤ × Mem
  /-- The call `realloc(pPerfData, cbData)`: whether a block was returned. -/
  realloc : ℕ → ℕ → Bool

/-! ## The grow-and-retry loop (main.cpp 149-165) -/

/-- How the grow-and-retry loop was left. -/
inductive LoopOutcome where
  /-- The `break` of line 156, with the status of the last fetch. -/
  | fetched (status : ℤ)
  /-- The `goto done` of line 161. -/
  | reallocFailed
  /-- The bound on the number of passes was reached with the loop running. -/
  | outOfFuel
  deriving DecidableEq

/-- The state in which the grow-and-retry loop was left; `trace` lists the
values assigned to `cbPerfData` at line 163, in order. -/
structure LoopResult where
  outcome : LoopOutcome
  cbPerfData : ℕ
  pPerfData : Mem
  trace : List ℕ

/-- The loop `while (1)` of main.cpp 149-165, run for at most `fuel` passes
from pass number `i`, capacity `cb` and buffer `p`. -/
def growLoop (env : Env) : ℕ → ℕ → ℕ → Mem → LoopResult
  | 0, _, cb, p => ⟨LoopOutcome.outOfFuel, cb, p, []⟩
  | fuel + 1, i, cb, p =>
    let cbData := cb
    let r := env.RegQueryValueExW i cbData p
    if r.1 ≠ ERROR_MORE_DATA then ⟨LoopOutcome.fetched r.1, cb, r.2, []⟩
    else
      let cbData := cb * 2 % 2 ^ 32
      if env.realloc i cbData then
        let rest := growLoop env fuel (i + 1) cbData r.2
        { rest with trace := cbData :: rest.trace }
      else ⟨LoopOutcome.reallocFailed, cb, r.2, []⟩

/-! ## The counter lookup (main.cpp 171-184) -/

/-- How the lookup loop was left. -/
inductive Lookup where
  /-- The counter with index 44 was met; `dwRunning` is the value passed to
  `calc_load` at line 180. -/
  | found (dwRunning : ℕ)
  /-- The loop ended with `pCounter` at or past `pData`. -/
  | notFound
  /-- The bound on the number of passes was reached with the loop running. -/
  | outOfFuel
  deriving DecidableEq

/-- The loop `while ((INT_PTR)pCounter < (INT_PTR)pData)` of main.cpp
177-184, run for at most `fuel` passes. Both pointers are offsets from
`pPerfData`, so the comparison of the pointers is that of the offsets, and
`pCounter++` adds the size of a counter definition. -/
def counterLoop (L : WinperfLayout) (m : Mem) (pData : ℕ) : ℕ → ℕ → Lookup
  | 0, _ => Lookup.outOfFuel
  | fuel + 1, pCounter =>
    if pCounter < pData then
      if readDWORD m (pCounter + L.counterNameTitleIndex) = 44 then
        Lookup.found (readDWORD m (pData + readDWORD m (pCounter + L.counterOffset)))
      else counterLoop L m pData fuel (pCounter + L.sizeofCounterDefinition)
    else Lookup.notFound

/-- The pointer `pObject` of line 171, as an offset from `pPerfData`. -/
def pObject (L : WinperfLayout) (m : Mem) : ℕ :=
  0 + readDWORD m (0 + L.blockHeaderLength)

/-- The initial pointer `pCounter` of line 173. -/
def pCounter (L : WinperfLayout) (m : Mem) : ℕ :=
  pObject L m + readDWORD m (pObject L m + L.objectHeaderLength)

/-- The pointer `pData` of line 175, the start of the raw data region. -/
def pData (L : WinperfLayout) (m : Mem) : ℕ :=
  pObject L m + readDWORD m (pObject L m + L.objectDefinitionLength)

/-- The address of entry `k` of the counter definition table. -/
def counterAt (L : WinperfLayout) (m : Mem) (k : ℕ) : ℕ :=
  pCounter L m + k * L.sizeofCounterDefinition

/-- The field `CounterNameTitleIndex` of entry `k`. -/
def indexAt (L : WinperfLayout) (m : Mem) (k : ℕ) : ℕ :=
  readDWORD m (counterAt L m k + L.counterNameTitleIndex)

/-- The `DWORD` of the raw data region at the `CounterOffset` of entry `k`. -/
def valueAt (L : WinperfLayout) (m : Mem) (k : ℕ) : ℕ :=
  readDWORD m (pData L m + readDWORD m (counterAt L m k + L.counterOffset))

/-- The lookup of lines 171-184 in the snapshot `m`. -/
def findCounter (L : WinperfLayout) (m : Mem) (fuel : ℕ) : Lookup :=
  counterLoop L m (pData L m) fuel (pCounter L m)

/-! ## One tick (main.cpp 134-188) -/

/-- How a tick ended. -/
inductive TickOutcome where
  /-- The averages were fed with `dwRunning` (line 180). -/
  | sampled (dwRunning : ℕ)
  /-- The lookup loop ended without meeting index 44. -/
  | counterNotFound
  /-- The fetch ended with a status other than success (lines 166-169). -/
  | queryFailed (status : ℤ)
  /-- The buffer could not be grown (lines 159-162). -/
  | reallocFailed
  /-- One of the loops was still running at the bound. -/
  | outOfFuel
  deriving DecidableEq

/-- The state after a tick, how the tick ended, and the values assigned to
`cbPerfData` during it. -/
structure TickResult where
  data : LOADAVG_DATA
  outcome : TickOutcome
  trace : List ℕ

/-- The callback `CalculateLoadReg` (main.cpp 134-188), each loop run for at
most `fuel` passes. -/
def CalculateLoadReg (L : WinperfLayout) (env : Env) (fuel : ℕ)
    (pLoadData : LOADAVG_DATA) : TickResult :=
  let r := growLoop env fuel 0 pLoadData.cbPerfData pLoadData.pPerfData
  let d : LOADAVG_DATA :=
    { pLoadData with cbPerfData := r.cbPerfData, pPerfData := r.pPerfData }
  match r.outcome with
  | LoopOutcome.outOfFuel => ⟨d, TickOutcome.outOfFuel, r.trace⟩
  | LoopOutcome.reallocFailed => ⟨d, TickOutcome.reallocFailed, r.trace⟩
  | LoopOutcome.fetched status =>
    if status ≠ ERROR_SUCCESS then ⟨d, TickOutcome.queryFailed status, r.trace⟩
    else
      match findCounter L r.pPerfData fuel with
      | Lookup.found dwRunning => ⟨calc_load d dwRunning, TickOutcome.sampled dwRunning, r.trace⟩
      | Lookup.notFound => ⟨d, TickOutcome.counterNotFound, r.trace⟩
      | Lookup.outOfFuel => ⟨d, TickOutcome.outOfFuel, r.trace⟩

/-- The state set up by `wmain` (main.cpp 198-211): averages 0 and a buffer
of 1024 bytes with contents `m`. -/
def wmainInit (m : Mem) : LOADAVG_DATA where
  average := fun _ => 0
  cbPerfData := 1024
  pPerfData := m

/-! ## Environments and snapshots used as examples -/

/-- An environment whose fetch reports `ERROR_MORE_DATA` exactly while the
capacity passed is below `n`, and then succeeds with the snapshot `m`; no
reallocation fails. -/
def envNeeds (n : ℕ) (m : Mem) : Env where
  RegQueryValueExW := fun _ cb _ =>
    if cb < n then (ERROR_MORE_DATA, m) else (ERROR_SUCCESS, m)
  realloc := fun _ _ => true

/-- An environment whose fetch reports `ERROR_MORE_DATA` exactly while the
capacity passed is below `n`, and then succeeds with the snapshot `m`; the
reallocation fails for the size 0 and for no other size. -/
def envGrow (n : ℕ) (m : Mem) : Env where
  RegQueryValueExW := fun _ cb _ =>
    if cb < n then (ERROR_MORE_DATA, m) else (ERROR_SUCCESS, m)
  realloc := fun _ sz => decide (sz ≠ 0)

/-- An environment that answers pass `i` of the loop with the status
`statuses[i]` (success past the end of the list) and lets the reallocation
of pass `i` succeed when `reallocs[i]` is true (also past the end). -/
def envScript (statuses : List ℤ) (reallocs : List Bool) (m : Mem) : Env where
  RegQueryValueExW := fun i _ _ => (statuses.getD i ERROR_SUCCESS, m)
  realloc := fun i _ => reallocs.getD i true

/-- The memory holding the bytes listed at the offsets listed, 0 elsewhere. -/
def memOf : List (ℕ × ℕ) → Mem
  | [], _ => 0
  | (a, b) :: rest, p => if p = a then b else memOf rest p

/-- A snapshot in the layout `winperf`: a data block header of 32 bytes, one
object with a header of 16 bytes and three counter definitions at 48, 88 and
128 with the indices 2, 44 and 50 and the counter offsets 4, 8 and 12, and the
raw data region at 168 holding 7, 261 and 9 at these offsets. -/
def snapshot44 : Mem :=
  memOf [(24, 32), (36, 136), (40, 16),
    (52, 2), (84, 4), (92, 44), (124, 8), (132, 50), (164, 12),
    (172, 7), (176, 5), (177, 1), (180, 9)]

/-- The snapshot `snapshot44` with index 43 in place of 44. -/
def snapshotNo44 : Mem :=
  memOf [(24, 32), (36, 136), (40, 16),
    (52, 2), (84, 4), (92, 43), (124, 8), (132, 50), (164, 12),
    (172, 7), (176, 5), (177, 1), (180, 9)]

/-- A running state with the averages 1, 2 and 3 and the buffer of `wmain`. -/
def exampleData : LOADAVG_DATA where
  average := fun i => (i.val : ℚ) + 1
  cbPerfData := 1024
  pPerfData := fun _ => 0

/-! ## The averaging step -/

theorem calc_loadf_eq {K : Type} [Field K] (previous decay observation : K) :
    calc_loadf previous decay observation
      = decay * previous + (1 - decay) * observation := by
  unfold calc_loadf; ring

theorem calc_load_average (s : LOADAVG_DATA) (r : ℕ) :
    (calc_load s r).average 0 = calc_loadf (s.average 0) LOADAVG_FACTOR_1F r
    ∧ (calc_load s r).average 1 = calc_loadf (s.average 1) LOADAVG_FACTOR_5F r
    ∧ (calc_load s r).average 2 = calc_loadf (s.average 2) LOADAVG_FACTOR_15F r := by
  refine ⟨?_, ?_, ?_⟩ <;> simp [calc_load, CALC_LOAD, Function.update]

theorem calc_load_rest (s : LOADAVG_DATA) (r : ℕ) :
    (calc_load s r).cbPerfData = s.cbPerfData
    ∧ (calc_load s r).pPerfData = s.pPerfData := ⟨rfl, rfl⟩

/-- C1: `calc_loadf previous decay observation` is
`decay * previous + (1 - decay) * observation` in every field, `calc_load`
replaces each of the three averages by `F * a + (1 - F) * r` with `F` the
factor of its class and `r` the sample, and from the average 0 the observation
4 with decay 0.92 gives 0.32. -/
theorem calc_load_spec :
    (∀ (K : Type) [Field K] (previous decay observation : K),
        calc_loadf previous decay observation
          = decay * previous + (1 - decay) * observation)
    ∧ (∀ (s : LOADAVG_DATA) (r : ℕ),
        (calc_load s r).average 0
            = LOADAVG_FACTOR_1F * s.average 0 + (1 - LOADAVG_FACTOR_1F) * r
        ∧ (calc_load s r).average 1
            = LOADAVG_FACTOR_5F * s.average 1 + (1 - LOADAVG_FACTOR_5F) * r
        ∧ (calc_load s r).average 2
            = LOADAVG_FACTOR_15F * s.average 2 + (1 - LOADAVG_FACTOR_15F) * r)
    ∧ calc_loadf (0 : ℚ) (92 / 100) 4 = 32 / 100 := by
  refine ⟨fun K _ p d o => calc_loadf_eq p d o, fun s r => ?_, ?_⟩
  · obtain ⟨h0, h1, h2⟩ := calc_load_average s r
    rw [h0, h1, h2]
    exact ⟨calc_loadf_eq _ _ _, calc_loadf_eq _ _ _, calc_loadf_eq _ _ _⟩
  · norm_num [calc_loadf]

/-- C4: for a decay factor `d` with `0 < d < 1`, `calc_loadf p d o` lies
between the previous average `p` and the observation `o`, both included. -/
theorem calc_loadf_between {K : Type} [LinearOrderedField K] (p o d : K)
    (h0 : 0 < d) (h1 : d < 1) :
    min p o ≤ calc_loadf p d o ∧ calc_loadf p d o ≤ max p o := by
  have hd : 0 < 1 - d := sub_pos.mpr h1
  unfold calc_loadf
  rcases le_total p o with h | h
  · rw [min_eq_left h, max_eq_right h]
    constructor
    · nlinarith [mul_le_mul_of_nonneg_right h hd.le]
    · nlinarith [mul_le_mul_of_nonneg_right h h0.le]
  · rw [min_eq_right h, max_eq_left h]
    constructor
    · nlinarith [mul_le_mul_of_nonneg_right h h0.le]
    · nlinarith [mul_le_mul_of_nonneg_right h hd.le]

theorem calc_loadf_between_witness :
    (0 : ℚ) < 92 / 100 ∧ (92 / 100 : ℚ) < 1
    ∧ min (0 : ℚ) 4 ≤ calc_loadf 0 (92 / 100) 4
    ∧ calc_loadf (0 : ℚ) (92 / 100) 4 ≤ max 0 4 :=
  ⟨by norm_num, by norm_num,
    calc_loadf_between (0 : ℚ) 4 (92 / 100) (by norm_num) (by norm_num)⟩

/-! ## A constant observation -/

theorem loadSeq_closed {K : Type} [Field K] (p d o : K) (n : ℕ) :
    loadSeq p d o n = o + d ^ n * (p - o) := by
  induction n with
  | zero => simp [loadSeq]
  | succ n ih => rw [loadSeq, ih, calc_loadf, pow_succ]; ring

/-- C5: with a constant observation `o` and a decay `d` with `0 < d < 1`, the
sequence of averages from `p` is non-decreasing and stays at or below `o` when
`p ≤ o`, is non-increasing and stays at or above `o` when `o ≤ p`, and tends
to `o`. -/
theorem loadSeq_converges (p o d : ℝ) (h0 : 0 < d) (h1 : d < 1) :
    (p ≤ o → Monotone (loadSeq p d o) ∧ ∀ n, loadSeq p d o n ≤ o)
    ∧ (o ≤ p → Antitone (loadSeq p d o) ∧ ∀ n, o ≤ loadSeq p d o n)
    ∧ Filter.Tendsto (loadSeq p d o) Filter.atTop (nhds o) := by
  have hpow : ∀ n : ℕ, 0 < d ^ n := fun n => pow_pos h0 n
  have hstep : ∀ n : ℕ, loadSeq p d o (n + 1) - loadSeq p d o n
      = d ^ n * (1 - d) * (o - p) := by
    intro n
    rw [loadSeq_closed, loadSeq_closed, pow_succ]; ring
  have hfac : ∀ n : ℕ, 0 < d ^ n * (1 - d) := fun n =>
    mul_pos (hpow n) (sub_pos.mpr h1)
  refine ⟨fun h => ⟨?_, fun n => ?_⟩, fun h => ⟨?_, fun n => ?_⟩, ?_⟩
  · refine monotone_nat_of_le_succ fun n => ?_
    have := mul_nonneg (hfac n).le (sub_nonneg.mpr h)
    linarith [hstep n]
  · rw [loadSeq_closed]
    have := mul_nonneg (hpow n).le (sub_nonneg.mpr h)
    linarith
  · refine antitone_nat_of_succ_le fun n => ?_
    have := mul_nonneg (hfac n).le (sub_nonneg.mpr h)
    linarith [hstep n]
  · rw [loadSeq_closed]
    have := mul_nonneg (hpow n).le (sub_nonneg.mpr h)
    linarith
  · have hfun : loadSeq p d o = fun n => o + d ^ n * (p - o) :=
      funext fun n => loadSeq_closed p d o n
    rw [hfun]
    have hz : Filter.Tendsto (fun n : ℕ => d ^ n) Filter.atTop (nhds 0) :=
      tendsto_pow_atTop_nhds_zero_of_lt_one h0.le h1
    have := (hz.mul_const (p - o)).const_add o
    simpa using this

theorem loadSeq_converges_witness :
    ((0 : ℝ) < 1 / 2 ∧ (1 / 2 : ℝ) < 1 ∧ (0 : ℝ) ≤ 4)
    ∧ Monotone (loadSeq (0 : ℝ) (1 / 2) 4)
    ∧ (∀ n, loadSeq (0 : ℝ) (1 / 2) 4 n ≤ 4)
    ∧ Filter.Tendsto (loadSeq (0 : ℝ) (1 / 2) 4) Filter.atTop (nhds 4) :=
  ⟨⟨by norm_num, by norm_num, by norm_num⟩,
    ((loadSeq_converges (0 : ℝ) 4 (1 / 2) (by norm_num) (by norm_num)).1
      (by norm_num)).1,
    ((loadSeq_converges (0 : ℝ) 4 (1 / 2) (by norm_num) (by norm_num)).1
      (by norm_num)).2,
    (loadSeq_converges (0 : ℝ) 4 (1 / 2) (by norm_num) (by norm_num)).2.2⟩

/-! ## The formula of the header comment (main.cpp 19-31) -/

/-- C9, as the header comment states it, fails: from the averages 0 and the
sample 4 no class ends at `a * Y + (1 - a) * S0`. -/
theorem header_formula_fails :
    (calc_load (wmainInit fun _ => 0) 4).average 0
        ≠ LOADAVG_FACTOR_1F * 4 + (1 - LOADAVG_FACTOR_1F) * 0
    ∧ (calc_load (wmainInit fun _ => 0) 4).average 1
        ≠ LOADAVG_FACTOR_5F * 4 + (1 - LOADAVG_FACTOR_5F) * 0
    ∧ (calc_load (wmainInit fun _ => 0) 4).average 2
        ≠ LOADAVG_FACTOR_15F * 4 + (1 - LOADAVG_FACTOR_15F) * 0 := by
  obtain ⟨h0, h1, h2⟩ := calc_load_average (wmainInit fun _ => 0) 4
  rw [h0, h1, h2]
  refine ⟨?_, ?_, ?_⟩ <;>
    norm_num [calc_loadf, wmainInit, LOADAVG_FACTOR_1F, LOADAVG_FACTOR_5F,
      LOADAVG_FACTOR_15F]

/-- C9, amended: with `a` the factor of the class, `Y` the sample and `S0`
the previous average, `calc_load` stores `a * S0 + (1 - a) * Y` in each class,
the formula of the header comment with `Y` and `S0` interchanged. -/
theorem header_formula_amended (s : LOADAVG_DATA) (Y : ℕ) :
    (calc_load s Y).average 0
        = LOADAVG_FACTOR_1F * s.average 0 + (1 - LOADAVG_FACTOR_1F) * Y
    ∧ (calc_load s Y).average 1
        = LOADAVG_FACTOR_5F * s.average 1 + (1 - LOADAVG_FACTOR_5F) * Y
    ∧ (calc_load s Y).average 2
        = LOADAVG_FACTOR_15F * s.average 2 + (1 - LOADAVG_FACTOR_15F) * Y := by
  obtain ⟨h0, h1, h2⟩ := calc_load_average s Y
  rw [h0, h1, h2]
  exact ⟨calc_loadf_eq _ _ _, calc_loadf_eq _ _ _, calc_loadf_eq _ _ _⟩

/-! ## The decay constants and the half-life formula -/

theorem halfLife_eq_exp (T : ℝ) (hT : T ≠ 0) :
    (2 : ℝ) ^ (-(LOADAVG_SAMPLE_RATE : ℝ) / (T * Real.log 2))
      = Real.exp (-((LOADAVG_SAMPLE_RATE : ℝ) / T)) := by
  have hlog : Real.log 2 ≠ 0 := (Real.log_pos (by norm_num)).ne'
  rw [Real.rpow_def_of_pos (by norm_num : (0 : ℝ) < 2)]
  congr 1
  field_simp
  ring

theorem exp_neg_near (x y c e : ℝ) (hy : |x| ≤ y) (hy1 : y ≤ 1)
    (hlo : (∑ m in Finset.range 14, x ^ m / (m.factorial : ℝ)) - c
      < e - y ^ 14 * ((Nat.succ 14 : ℕ) / ((Nat.factorial 14 : ℕ) * (14 : ℕ) : ℝ)))
    (hhi : c - (∑ m in Finset.range 14, x ^ m / (m.factorial : ℝ))
      < e - y ^ 14 * ((Nat.succ 14 : ℕ) / ((Nat.factorial 14 : ℕ) * (14 : ℕ) : ℝ))) :
    |c - Real.exp x| < e := by
  have hb := Real.exp_bound (hy.trans hy1) (by norm_num : 0 < 14)
  have hpow : |x| ^ 14 ≤ y ^ 14 := pow_le_pow_left₀ (abs_nonneg x) hy 14
  have hc : (0 : ℝ) ≤ (Nat.succ 14 : ℕ) / ((Nat.factorial 14 : ℕ) * (14 : ℕ) : ℝ) := by
    positivity
  have hb2 := hb.trans (mul_le_mul_of_nonneg_right hpow hc)
  rw [abs_le] at hb2
  rw [abs_lt]
  constructor <;> linarith [hb2.1, hb2.2]

theorem binary64_nearest :
    |(LOADAVG_FACTOR_1F_binary64 : ℝ) - (LOADAVG_FACTOR_1F : ℝ)| ≤ 1 / 2 ^ 54
    ∧ |(LOADAVG_FACTOR_5F_binary64 : ℝ) - (LOADAVG_FACTOR_5F : ℝ)| ≤ 1 / 2 ^ 54
    ∧ |(LOADAVG_FACTOR_15F_binary64 : ℝ) - (LOADAVG_FACTOR_15F : ℝ)| ≤ 1 / 2 ^ 54 := by
  refine ⟨?_, ?_, ?_⟩ <;> rw [abs_le] <;>
    norm_num [LOADAVG_FACTOR_1F_binary64, LOADAVG_FACTOR_5F_binary64,
      LOADAVG_FACTOR_15F_binary64, LOADAVG_FACTOR_1F, LOADAVG_FACTOR_5F,
      LOADAVG_FACTOR_15F]

theorem near_of_near (b c x : ℝ) (hb : |b - c| ≤ 1 / 2 ^ 54)
    (hc : |c - x| < 1 / 10 ^ 20) : |b - x| < 1 / 10 ^ 16 := by
  have := abs_sub_le b c x
  have h54 : (1 : ℝ) / 2 ^ 54 + 1 / 10 ^ 20 < 1 / 10 ^ 16 := by norm_num
  linarith

theorem factor_literal_near :
    |(LOADAVG_FACTOR_1F : ℝ) - Real.exp (-(5 / 60))| < 1 / 10 ^ 20
    ∧ |(LOADAVG_FACTOR_5F : ℝ) - Real.exp (-(5 / 300))| < 1 / 10 ^ 20
    ∧ |(LOADAVG_FACTOR_15F : ℝ) - Real.exp (-(5 / 900))| < 1 / 10 ^ 20 := by
  refine ⟨?_, ?_, ?_⟩
  · apply exp_neg_near (-(5 / 60)) (1 / 12)
    · rw [abs_le]; constructor <;> norm_num
    · norm_num
    · simp only [Finset.sum_range_succ, Finset.sum_range_zero, LOADAVG_FACTOR_1F]
      norm_num [Nat.factorial]
    · simp only [Finset.sum_range_succ, Finset.sum_range_zero, LOADAVG_FACTOR_1F]
      norm_num [Nat.factorial]
  · apply exp_neg_near (-(5 / 300)) (1 / 60)
    · rw [abs_le]; constructor <;> norm_num
    · norm_num
    · simp only [Finset.sum_range_succ, Finset.sum_range_zero, LOADAVG_FACTOR_5F]
      norm_num [Nat.factorial]
    · simp only [Finset.sum_range_succ, Finset.sum_range_zero, LOADAVG_FACTOR_5F]
      norm_num [Nat.factorial]
  · apply exp_neg_near (-(5 / 900)) (1 / 180)
    · rw [abs_le]; constructor <;> norm_num
    · norm_num
    · simp only [Finset.sum_range_succ, Finset.sum_range_zero, LOADAVG_FACTOR_15F]
      norm_num [Nat.factorial]
    · simp only [Finset.sum_range_succ, Finset.sum_range_zero, LOADAVG_FACTOR_15F]
      norm_num [Nat.factorial]

/-- C8: each decay constant, as the decimal literal and as the `double` it
denotes, differs by less than `10 ^ (-16)` from the value
`2 ^ (-sample_interval / (T * ln 2))` of the half-life formula, which is
`e ^ (-5 / T)`, for the sample interval 5 and `T` = 60, 300 and 900. -/
theorem factor_formula :
    (|(LOADAVG_FACTOR_1F : ℝ)
        - (2 : ℝ) ^ (-(LOADAVG_SAMPLE_RATE : ℝ) / (60 * Real.log 2))| < 1 / 10 ^ 16
      ∧ |(LOADAVG_FACTOR_5F : ℝ)
        - (2 : ℝ) ^ (-(LOADAVG_SAMPLE_RATE : ℝ) / (300 * Real.log 2))| < 1 / 10 ^ 16
      ∧ |(LOADAVG_FACTOR_15F : ℝ)
        - (2 : ℝ) ^ (-(LOADAVG_SAMPLE_RATE : ℝ) / (900 * Real.log 2))| < 1 / 10 ^ 16)
    ∧ (|(LOADAVG_FACTOR_1F_binary64 : ℝ)
        - (2 : ℝ) ^ (-(LOADAVG_SAMPLE_RATE : ℝ) / (60 * Real.log 2))| < 1 / 10 ^ 16
      ∧ |(LOADAVG_FACTOR_5F_binary64 : ℝ)
        - (2 : ℝ) ^ (-(LOADAVG_SAMPLE_RATE : ℝ) / (300 * Real.log 2))| < 1 / 10 ^ 16
      ∧ |(LOADAVG_FACTOR_15F_binary64 : ℝ)
        - (2 : ℝ) ^ (-(LOADAVG_SAMPLE_RATE : ℝ) / (900 * Real.log 2))| < 1 / 10 ^ 16)
    ∧ (2 : ℝ) ^ (-(LOADAVG_SAMPLE_RATE : ℝ) / (60 * Real.log 2)) = Real.exp (-(5 / 60))
    ∧ (2 : ℝ) ^ (-(LOADAVG_SAMPLE_RATE : ℝ) / (300 * Real.log 2)) = Real.exp (-(5 / 300))
    ∧ (2 : ℝ) ^ (-(LOADAVG_SAMPLE_RATE : ℝ) / (900 * Real.log 2)) = Real.exp (-(5 / 900)) := by
  have e1 := halfLife_eq_exp 60 (by norm_num)
  have e5 := halfLife_eq_exp 300 (by norm_num)
  have e15 := halfLife_eq_exp 900 (by norm_num)
  have hr : ((LOADAVG_SAMPLE_RATE : ℕ) : ℝ) = 5 := by norm_num [LOADAVG_SAMPLE_RATE]
  rw [hr] at e1 e5 e15
  rw [hr, e1, e5, e15]
  obtain ⟨l1, l5, l15⟩ := factor_literal_near
  obtain ⟨c1, c5, c15⟩ := binary64_nearest
  have small : (1 : ℝ) / 10 ^ 20 < 1 / 10 ^ 16 := by norm_num
  exact ⟨⟨l1.trans small, l5.trans small, l15.trans small⟩,
    ⟨near_of_near _ _ _ c1 l1, near_of_near _ _ _ c5 l5, near_of_near _ _ _ c15 l15⟩,
    rfl, rfl, rfl⟩

/-! ## The grow-and-retry loop -/

theorem growLoop_zero (env : Env) (i c : ℕ) (p : Mem) :
    growLoop env 0 i c p = ⟨LoopOutcome.outOfFuel, c, p, []⟩ := rfl

theorem growLoop_break (env : Env) (fuel i c : ℕ) (p : Mem)
    (h : (env.RegQueryValueExW i c p).1 ≠ ERROR_MORE_DATA) :
    growLoop env (fuel + 1) i c p
      = ⟨LoopOutcome.fetched (env.RegQueryValueExW i c p).1, c,
          (env.RegQueryValueExW i c p).2, []⟩ := by
  simp [growLoop, h]

theorem growLoop_fail (env : Env) (fuel i c : ℕ) (p : Mem)
    (h : (env.RegQueryValueExW i c p).1 = ERROR_MORE_DATA)
    (hr : env.realloc i (c * 2 % 2 ^ 32) = false) :
    growLoop env (fuel + 1) i c p
      = ⟨LoopOutcome.reallocFailed, c, (env.RegQueryValueExW i c p).2, []⟩ := by
  simp only [growLoop, h, hr]
  simp

theorem growLoop_grow (env : Env) (fuel i c : ℕ) (p : Mem)
    (h : (env.RegQueryValueExW i c p).1 = ERROR_MORE_DATA)
    (hr : env.realloc i (c * 2 % 2 ^ 32) = true) :
    growLoop env (fuel + 1) i c p
      = { growLoop env fuel (i + 1) (c * 2 % 2 ^ 32) (env.RegQueryValueExW i c p).2 with
          trace := c * 2 % 2 ^ 32 ::
            (growLoop env fuel (i + 1) (c * 2 % 2 ^ 32)
              (env.RegQueryValueExW i c p).2).trace } := by
  simp only [growLoop, h, hr]
  simp

theorem growLoop_trace (env : Env) (fuel : ℕ) :
    ∀ (i c : ℕ) (p : Mem), c < 2 ^ 32 →
      (growLoop env fuel i c p).trace
          = (List.range (growLoop env fuel i c p).trace.length).map
              (fun j => c * 2 ^ (j + 1) % 2 ^ 32)
      ∧ (growLoop env fuel i c p).cbPerfData
          = c * 2 ^ (growLoop env fuel i c p).trace.length % 2 ^ 32 := by
  induction fuel with
  | zero =>
    intro i c p hc
    rw [growLoop_zero]
    exact ⟨rfl, by rw [List.length_nil, pow_zero, mul_one, Nat.mod_eq_of_lt hc]⟩
  | succ fuel ih =>
    intro i c p hc
    by_cases h : (env.RegQueryValueExW i c p).1 = ERROR_MORE_DATA
    · cases hr : env.realloc i (c * 2 % 2 ^ 32)
      · rw [growLoop_fail env fuel i c p h hr]
        exact ⟨rfl, by rw [List.length_nil, pow_zero, mul_one, Nat.mod_eq_of_lt hc]⟩
      · have hlt : c * 2 % 2 ^ 32 < 2 ^ 32 := Nat.mod_lt _ (by norm_num)
        obtain ⟨h1, h2⟩ := ih (i + 1) (c * 2 % 2 ^ 32) (env.RegQueryValueExW i c p).2 hlt
        have hstep : ∀ j : ℕ, c * 2 % 2 ^ 32 * 2 ^ j % 2 ^ 32
            = c * 2 ^ (j + 1) % 2 ^ 32 := by
          intro j
          rw [Nat.mod_mul_mod, pow_succ' _ j, mul_assoc]
        rw [growLoop_grow env fuel i c p h hr]
        refine ⟨?_, ?_⟩
        · show c * 2 % 2 ^ 32 :: _ = List.map _ (List.range (Nat.succ _))
          rw [List.range_succ_eq_map, List.map_cons, List.map_map]
          congr 1
          conv_lhs => rw [h1]
          apply List.map_congr_left
          intro j _
          exact hstep (j + 1)
        · show _ = c * 2 ^ (Nat.succ _) % 2 ^ 32
          rw [h2]
          exact hstep _
    · rw [growLoop_break env fuel i c p h]
      exact ⟨rfl, by rw [List.length_nil, pow_zero, mul_one, Nat.mod_eq_of_lt hc]⟩

theorem growLoop_exact (env : Env) (n : ℕ)
    (hfetch : ∀ (i cb : ℕ) (p : Mem),
      (env.RegQueryValueExW i cb p).1 = ERROR_MORE_DATA ↔ cb < n)
    (hre : ∀ i sz : ℕ, env.realloc i sz = true) :
    ∀ (k c i : ℕ) (p : Mem) (fuel : ℕ), k < fuel → n ≤ c * 2 ^ k →
      (∀ j < k, c * 2 ^ j < n) → c * 2 ^ k < 2 ^ 32 →
      (∃ st, (growLoop env fuel i c p).outcome = LoopOutcome.fetched st
          ∧ st ≠ ERROR_MORE_DATA)
      ∧ (growLoop env fuel i c p).cbPerfData = c * 2 ^ k
      ∧ (growLoop env fuel i c p).trace
          = (List.range k).map (fun j => c * 2 ^ (j + 1)) := by
  intro k
  induction k with
  | zero =>
    intro c i p fuel hfuel hn _ _
    obtain ⟨f, rfl⟩ : ∃ f, fuel = f + 1 := ⟨fuel - 1, by omega⟩
    have hnot : (env.RegQueryValueExW i c p).1 ≠ ERROR_MORE_DATA := by
      rw [Ne, hfetch]; rw [pow_zero, mul_one] at hn; omega
    rw [growLoop_break env f i c p hnot]
    exact ⟨⟨_, rfl, hnot⟩, by rw [pow_zero, mul_one], rfl⟩
  | succ k ih =>
    intro c i p fuel hfuel hn hlt hov
    obtain ⟨f, rfl⟩ : ∃ f, fuel = f + 1 := ⟨fuel - 1, by omega⟩
    have hmore : (env.RegQueryValueExW i c p).1 = ERROR_MORE_DATA := by
      rw [hfetch]; simpa using hlt 0 (Nat.succ_pos k)
    have hk2 : c * 2 ^ (k + 1) = c * 2 * 2 ^ k := by rw [pow_succ' _ k, mul_assoc]
    have hpos : 1 ≤ 2 ^ k := Nat.one_le_two_pow
    have hc2 : c * 2 < 2 ^ 32 := by
      have : c * 2 * 1 ≤ c * 2 * 2 ^ k := Nat.mul_le_mul_left _ hpos
      omega
    have hmod : c * 2 % 2 ^ 32 = c * 2 := Nat.mod_eq_of_lt hc2
    rw [growLoop_grow env f i c p hmore (hre _ _), hmod]
    obtain ⟨h1, h2, h3⟩ := ih (c * 2) (i + 1) (env.RegQueryValueExW i c p).2 f
      (by omega) (by rw [← hk2]; exact hn)
      (fun j hj => by
        have := hlt (j + 1) (by omega)
        rwa [pow_succ' _ j, ← mul_assoc] at this)
      (by rw [← hk2]; exact hov)
    refine ⟨h1, ?_, ?_⟩
    · show (growLoop env f (i + 1) (c * 2) _).cbPerfData = _
      rw [h2, hk2]
    · show c * 2 :: (growLoop env f (i + 1) (c * 2) _).trace = _
      rw [h3, List.range_succ_eq_map, List.map_cons, List.map_map]
      congr 1
      apply List.map_congr_left
      intro j _
      show c * 2 * 2 ^ (j + 1) = c * 2 ^ (j + 1 + 1)
      rw [pow_succ' _ (j + 1), mul_assoc]

/-! ## The tick and its loops -/

theorem tick_of_failed (L : WinperfLayout) (env : Env) (fuel : ℕ) (s : LOADAVG_DATA)
    (st : ℤ) (hg : (growLoop env fuel 0 s.cbPerfData s.pPerfData).outcome
      = LoopOutcome.fetched st) (hst : st ≠ ERROR_SUCCESS) :
    CalculateLoadReg L env fuel s
      = ⟨{ s with
            cbPerfData := (growLoop env fuel 0 s.cbPerfData s.pPerfData).cbPerfData,
            pPerfData := (growLoop env fuel 0 s.cbPerfData s.pPerfData).pPerfData },
          TickOutcome.queryFailed st,
          (growLoop env fuel 0 s.cbPerfData s.pPerfData).trace⟩ := by
  simp only [CalculateLoadReg, hg, hst, if_true, ne_eq, not_false_eq_true]

theorem tick_of_reallocFailed (L : WinperfLayout) (env : Env) (fuel : ℕ)
    (s : LOADAVG_DATA)
    (hg : (growLoop env fuel 0 s.cbPerfData s.pPerfData).outcome
      = LoopOutcome.reallocFailed) :
    CalculateLoadReg L env fuel s
      = ⟨{ s with
            cbPerfData := (growLoop env fuel 0 s.cbPerfData s.pPerfData).cbPerfData,
            pPerfData := (growLoop env fuel 0 s.cbPerfData s.pPerfData).pPerfData },
          TickOutcome.reallocFailed,
          (growLoop env fuel 0 s.cbPerfData s.pPerfData).trace⟩ := by
  simp only [CalculateLoadReg, hg]

theorem tick_of_outOfFuel (L : WinperfLayout) (env : Env) (fuel : ℕ)
    (s : LOADAVG_DATA)
    (hg : (growLoop env fuel 0 s.cbPerfData s.pPerfData).outcome
      = LoopOutcome.outOfFuel) :
    CalculateLoadReg L env fuel s
      = ⟨{ s with
            cbPerfData := (growLoop env fuel 0 s.cbPerfData s.pPerfData).cbPerfData,
            pPerfData := (growLoop env fuel 0 s.cbPerfData s.pPerfData).pPerfData },
          TickOutcome.outOfFuel,
          (growLoop env fuel 0 s.cbPerfData s.pPerfData).trace⟩ := by
  simp only [CalculateLoadReg, hg]

theorem tick_of_found (L : WinperfLayout) (env : Env) (fuel : ℕ) (s : LOADAVG_DATA)
    (hg : (growLoop env fuel 0 s.cbPerfData s.pPerfData).outcome
      = LoopOutcome.fetched ERROR_SUCCESS) (v : ℕ)
    (hv : findCounter L (growLoop env fuel 0 s.cbPerfData s.pPerfData).pPerfData fuel
      = Lookup.found v) :
    CalculateLoadReg L env fuel s
      = ⟨calc_load { s with
            cbPerfData := (growLoop env fuel 0 s.cbPerfData s.pPerfData).cbPerfData,
            pPerfData := (growLoop env fuel 0 s.cbPerfData s.pPerfData).pPerfData } v,
          TickOutcome.sampled v,
          (growLoop env fuel 0 s.cbPerfData s.pPerfData).trace⟩ := by
  simp only [CalculateLoadReg, hg, hv, ne_eq, not_true_eq_false, if_false]

theorem tick_of_notFound (L : WinperfLayout) (env : Env) (fuel : ℕ) (s : LOADAVG_DATA)
    (hg : (growLoop env fuel 0 s.cbPerfData s.pPerfData).outcome
      = LoopOutcome.fetched ERROR_SUCCESS)
    (hv : findCounter L (growLoop env fuel 0 s.cbPerfData s.pPerfData).pPerfData fuel
      = Lookup.notFound) :
    CalculateLoadReg L env fuel s
      = ⟨{ s with
            cbPerfData := (growLoop env fuel 0 s.cbPerfData s.pPerfData).cbPerfData,
            pPerfData := (growLoop env fuel 0 s.cbPerfData s.pPerfData).pPerfData },
          TickOutcome.counterNotFound,
          (growLoop env fuel 0 s.cbPerfData s.pPerfData).trace⟩ := by
  simp only [CalculateLoadReg, hg, hv, ne_eq, not_true_eq_false, if_false]

theorem tick_of_lookupOutOfFuel (L : WinperfLayout) (env : Env) (fuel : ℕ)
    (s : LOADAVG_DATA)
    (hg : (growLoop env fuel 0 s.cbPerfData s.pPerfData).outcome
      = LoopOutcome.fetched ERROR_SUCCESS)
    (hv : findCounter L (growLoop env fuel 0 s.cbPerfData s.pPerfData).pPerfData fuel
      = Lookup.outOfFuel) :
    CalculateLoadReg L env fuel s
      = ⟨{ s with
            cbPerfData := (growLoop env fuel 0 s.cbPerfData s.pPerfData).cbPerfData,
            pPerfData := (growLoop env fuel 0 s.cbPerfData s.pPerfData).pPerfData },
          TickOutcome.outOfFuel,
          (growLoop env fuel 0 s.cbPerfData s.pPerfData).trace⟩ := by
  simp only [CalculateLoadReg, hg, hv, ne_eq, not_true_eq_false, if_false]

theorem tick_cbPerfData (L : WinperfLayout) (env : Env) (fuel : ℕ) (s : LOADAVG_DATA) :
    (CalculateLoadReg L env fuel s).data.cbPerfData
        = (growLoop env fuel 0 s.cbPerfData s.pPerfData).cbPerfData
    ∧ (CalculateLoadReg L env fuel s).trace
        = (growLoop env fuel 0 s.cbPerfData s.pPerfData).trace := by
  rcases hg : (growLoop env fuel 0 s.cbPerfData s.pPerfData).outcome with st | _ | _
  · by_cases hst : st = ERROR_SUCCESS
    · subst hst
      rcases hv : findCounter L (growLoop env fuel 0 s.cbPerfData s.pPerfData).pPerfData
        fuel with v | _ | _
      · rw [tick_of_found L env fuel s hg v hv]; exact ⟨rfl, rfl⟩
      · rw [tick_of_notFound L env fuel s hg hv]; exact ⟨rfl, rfl⟩
      · rw [tick_of_lookupOutOfFuel L env fuel s hg hv]; exact ⟨rfl, rfl⟩
    · rw [tick_of_failed L env fuel s st hg hst]; exact ⟨rfl, rfl⟩
  · rw [tick_of_reallocFailed L env fuel s hg]; exact ⟨rfl, rfl⟩
  · rw [tick_of_outOfFuel L env fuel s hg]; exact ⟨rfl, rfl⟩

/-! ## The counter lookup -/

theorem readDWORD_lt (m : Mem) (p : ℕ) : readDWORD m p < 2 ^ 32 := by
  unfold readDWORD
  have h0 := Nat.mod_lt (m p) (by norm_num : 0 < 256)
  have h1 := Nat.mod_lt (m (p + 1)) (by norm_num : 0 < 256)
  have h2 := Nat.mod_lt (m (p + 2)) (by norm_num : 0 < 256)
  have h3 := Nat.mod_lt (m (p + 3)) (by norm_num : 0 < 256)
  omega

theorem counterLoop_found (L : WinperfLayout) (m : Mem) (pD : ℕ) :
    ∀ (k fuel pC : ℕ), k < fuel → pC + k * L.sizeofCounterDefinition < pD →
      readDWORD m (pC + k * L.sizeofCounterDefinition + L.counterNameTitleIndex) = 44 →
      (∀ j < k,
        readDWORD m (pC + j * L.sizeofCounterDefinition + L.counterNameTitleIndex) ≠ 44) →
      counterLoop L m pD fuel pC
        = Lookup.found (readDWORD m
            (pD + readDWORD m (pC + k * L.sizeofCounterDefinition + L.counterOffset))) := by
  intro k
  induction k with
  | zero =>
    intro fuel pC hfuel hlt h44 _
    obtain ⟨f, rfl⟩ : ∃ f, fuel = f + 1 := ⟨fuel - 1, by omega⟩
    simp only [Nat.zero_mul, Nat.add_zero] at hlt h44 ⊢
    simp only [counterLoop, hlt, h44, if_true]
  | succ k ih =>
    intro fuel pC hfuel hlt h44 hfirst
    obtain ⟨f, rfl⟩ : ∃ f, fuel = f + 1 := ⟨fuel - 1, by omega⟩
    have hadd : ∀ j : ℕ, pC + (j + 1) * L.sizeofCounterDefinition
        = pC + L.sizeofCounterDefinition + j * L.sizeofCounterDefinition := by
      intro j; rw [Nat.add_mul, Nat.one_mul]; omega
    have hpC : pC < pD := by rw [hadd] at hlt; omega
    have h0 : readDWORD m (pC + L.counterNameTitleIndex) ≠ 44 := by
      simpa using hfirst 0 (Nat.succ_pos k)
    rw [hadd] at hlt h44 ⊢
    have hrec := ih f (pC + L.sizeofCounterDefinition) (by omega) hlt h44
      (fun j hj => by
        have := hfirst (j + 1) (by omega)
        rwa [hadd] at this)
    simp only [counterLoop, hpC, h0, if_true, if_false]
    exact hrec

theorem counterLoop_found_inv (L : WinperfLayout) (m : Mem) (pD : ℕ) :
    ∀ (fuel pC v : ℕ), counterLoop L m pD fuel pC = Lookup.found v →
      ∃ k, k < fuel ∧ pC + k * L.sizeofCounterDefinition < pD
        ∧ readDWORD m (pC + k * L.sizeofCounterDefinition + L.counterNameTitleIndex) = 44
        ∧ (∀ j < k,
          readDWORD m (pC + j * L.sizeofCounterDefinition + L.counterNameTitleIndex) ≠ 44)
        ∧ v = readDWORD m
            (pD + readDWORD m (pC + k * L.sizeofCounterDefinition + L.counterOffset)) := by
  intro fuel
  induction fuel with
  | zero => intro pC v h; simp [counterLoop] at h
  | succ f ih =>
    intro pC v h
    have hadd : ∀ j : ℕ, pC + (j + 1) * L.sizeofCounterDefinition
        = pC + L.sizeofCounterDefinition + j * L.sizeofCounterDefinition := by
      intro j; rw [Nat.add_mul, Nat.one_mul]; omega
    by_cases hpC : pC < pD
    · by_cases h44 : readDWORD m (pC + L.counterNameTitleIndex) = 44
      · simp only [counterLoop, hpC, h44, if_true, Lookup.found.injEq] at h
        refine ⟨0, Nat.succ_pos f, ?_, ?_, fun j hj => absurd hj (Nat.not_lt_zero j), ?_⟩
        · simpa using hpC
        · simpa using h44
        · simpa using h.symm
      · simp only [counterLoop, hpC, h44, if_true, if_false] at h
        obtain ⟨k, hk, hlt, hidx, hfirst, hv⟩ := ih _ v h
        refine ⟨k + 1, by omega, ?_, ?_, ?_, ?_⟩
        · rw [hadd]; exact hlt
        · rw [hadd]; exact hidx
        · intro j hj
          cases j with
          | zero => simpa using h44
          | succ j => rw [hadd]; exact hfirst j (by omega)
        · rw [hadd]; exact hv
    · simp [counterLoop, hpC] at h

theorem counterLoop_terminates (L : WinperfLayout) (m : Mem) (pD : ℕ)
    (hsz : 0 < L.sizeofCounterDefinition) :
    ∀ (fuel pC : ℕ), pD - pC < fuel → counterLoop L m pD fuel pC ≠ Lookup.outOfFuel := by
  intro fuel
  induction fuel with
  | zero => intro pC h; omega
  | succ f ih =>
    intro pC h
    by_cases hpC : pC < pD
    · by_cases h44 : readDWORD m (pC + L.counterNameTitleIndex) = 44
      · simp [counterLoop, hpC, h44]
      · simp only [counterLoop, hpC, h44, if_true, if_false]
        exact ih _ (by omega)
    · simp [counterLoop, hpC]

theorem findCounter_found (L : WinperfLayout) (m : Mem) (k fuel : ℕ) (hfuel : k < fuel)
    (hk : counterAt L m k < pData L m) (h44 : indexAt L m k = 44)
    (hfirst : ∀ j < k, indexAt L m j ≠ 44) :
    findCounter L m fuel = Lookup.found (valueAt L m k) :=
  counterLoop_found L m (pData L m) k fuel (pCounter L m) hfuel hk h44 hfirst

theorem findCounter_found_inv (L : WinperfLayout) (m : Mem) (fuel v : ℕ)
    (h : findCounter L m fuel = Lookup.found v) :
    ∃ k, k < fuel ∧ counterAt L m k < pData L m ∧ indexAt L m k = 44
      ∧ (∀ j < k, indexAt L m j ≠ 44) ∧ v = valueAt L m k :=
  counterLoop_found_inv L m (pData L m) fuel (pCounter L m) v h

theorem findCounter_terminates (L : WinperfLayout) (m : Mem)
    (hsz : 0 < L.sizeofCounterDefinition) (fuel : ℕ)
    (hfuel : pData L m - pCounter L m < fuel) :
    findCounter L m fuel ≠ Lookup.outOfFuel :=
  counterLoop_terminates L m (pData L m) hsz fuel (pCounter L m) hfuel

theorem envNeeds_fetch (n : ℕ) (m : Mem) (i cb : ℕ) (p : Mem) :
    ((envNeeds n m).RegQueryValueExW i cb p).1 = ERROR_MORE_DATA ↔ cb < n := by
  unfold envNeeds
  by_cases h : cb < n
  · simp [h]
  · simp [h, ERROR_SUCCESS, ERROR_MORE_DATA]

/-! ## The claims on the tick -/

/-- C2: when the fetch of a tick ends with success and entry `k` of the
counter definition table of the snapshot is the entry with index 44 (no entry
before it has that index), the tick feeds the three averages with the `DWORD`
stored at the `CounterOffset` of that entry, counted from the start `pData` of
the raw data region, which is the object start plus `DefinitionLength`. -/
theorem tick_feeds_counter (L : WinperfLayout) (env : Env) (fuel : ℕ)
    (s : LOADAVG_DATA) (k : ℕ)
    (hg : (growLoop env fuel 0 s.cbPerfData s.pPerfData).outcome
      = LoopOutcome.fetched ERROR_SUCCESS)
    (hk : counterAt L (growLoop env fuel 0 s.cbPerfData s.pPerfData).pPerfData k
      < pData L (growLoop env fuel 0 s.cbPerfData s.pPerfData).pPerfData)
    (h44 : indexAt L (growLoop env fuel 0 s.cbPerfData s.pPerfData).pPerfData k = 44)
    (hfirst : ∀ j < k,
      indexAt L (growLoop env fuel 0 s.cbPerfData s.pPerfData).pPerfData j ≠ 44)
    (hfuel : k < fuel) :
    (CalculateLoadReg L env fuel s).outcome
        = TickOutcome.sampled
            (readDWORD (growLoop env fuel 0 s.cbPerfData s.pPerfData).pPerfData
              (pData L (growLoop env fuel 0 s.cbPerfData s.pPerfData).pPerfData
                + readDWORD (growLoop env fuel 0 s.cbPerfData s.pPerfData).pPerfData
                    (counterAt L (growLoop env fuel 0 s.cbPerfData s.pPerfData).pPerfData k
                      + L.counterOffset)))
    ∧ (CalculateLoadReg L env fuel s).data.average
        = (calc_load s
            (readDWORD (growLoop env fuel 0 s.cbPerfData s.pPerfData).pPerfData
              (pData L (growLoop env fuel 0 s.cbPerfData s.pPerfData).pPerfData
                + readDWORD (growLoop env fuel 0 s.cbPerfData s.pPerfData).pPerfData
                    (counterAt L (growLoop env fuel 0 s.cbPerfData s.pPerfData).pPerfData k
                      + L.counterOffset)))).average
    ∧ pData L (growLoop env fuel 0 s.cbPerfData s.pPerfData).pPerfData
        = pObject L (growLoop env fuel 0 s.cbPerfData s.pPerfData).pPerfData
          + readDWORD (growLoop env fuel 0 s.cbPerfData s.pPerfData).pPerfData
              (pObject L (growLoop env fuel 0 s.cbPerfData s.pPerfData).pPerfData
                + L.objectDefinitionLength)
    ∧ readDWORD (growLoop env fuel 0 s.cbPerfData s.pPerfData).pPerfData
          (pData L (growLoop env fuel 0 s.cbPerfData s.pPerfData).pPerfData
            + readDWORD (growLoop env fuel 0 s.cbPerfData s.pPerfData).pPerfData
                (counterAt L (growLoop env fuel 0 s.cbPerfData s.pPerfData).pPerfData k
                  + L.counterOffset)) < 2 ^ 32 := by
  have hv := findCounter_found L _ k fuel hfuel hk h44 hfirst
  rw [tick_of_found L env fuel s hg _ hv]
  exact ⟨rfl, rfl, rfl, readDWORD_lt _ _⟩

theorem tick_feeds_counter_witness :
    (indexAt winperf snapshot44 0 = 2 ∧ indexAt winperf snapshot44 1 = 44
      ∧ indexAt winperf snapshot44 2 = 50
      ∧ counterAt winperf snapshot44 2 < pData winperf snapshot44
      ∧ ¬ counterAt winperf snapshot44 3 < pData winperf snapshot44)
    ∧ (CalculateLoadReg winperf (envNeeds 944 snapshot44) 2 (wmainInit fun _ => 0)).outcome
        = TickOutcome.sampled 261
    ∧ (CalculateLoadReg winperf (envNeeds 944 snapshot44) 2
          (wmainInit fun _ => 0)).data.average
        = (calc_load (wmainInit fun _ => 0) 261).average := by
  have h := tick_feeds_counter winperf (envNeeds 944 snapshot44) 2
    (wmainInit fun _ => 0) 1 (by decide) (by decide) (by decide) (by decide) (by decide)
  have hv : readDWORD (growLoop (envNeeds 944 snapshot44) 2 0
        (wmainInit fun _ => 0).cbPerfData (wmainInit fun _ => 0).pPerfData).pPerfData
      (pData winperf (growLoop (envNeeds 944 snapshot44) 2 0
        (wmainInit fun _ => 0).cbPerfData (wmainInit fun _ => 0).pPerfData).pPerfData
        + readDWORD (growLoop (envNeeds 944 snapshot44) 2 0
            (wmainInit fun _ => 0).cbPerfData (wmainInit fun _ => 0).pPerfData).pPerfData
          (counterAt winperf (growLoop (envNeeds 944 snapshot44) 2 0
            (wmainInit fun _ => 0).cbPerfData (wmainInit fun _ => 0).pPerfData).pPerfData 1
            + winperf.counterOffset)) = 261 := by decide
  rw [hv] at h
  exact ⟨by decide, h.1, h.2.1⟩

/-- C3: a tick leaves the three averages as they were when the fetch ends
with a status other than success, when the reallocation fails, and when the
fetch succeeds but no entry of the counter definition table has index 44; when
the fetch succeeds and an entry with index 44 is within reach of the lookup,
all three averages are those of `calc_load` for one sample; and in every case
the averages are either all unchanged or all updated from one sample. -/
theorem tick_all_or_none (L : WinperfLayout) (env : Env) (fuel : ℕ)
    (s : LOADAVG_DATA) :
    (∀ st, (growLoop env fuel 0 s.cbPerfData s.pPerfData).outcome
          = LoopOutcome.fetched st → st ≠ ERROR_SUCCESS →
        (CalculateLoadReg L env fuel s).data.average = s.average)
    ∧ ((growLoop env fuel 0 s.cbPerfData s.pPerfData).outcome
          = LoopOutcome.reallocFailed →
        (CalculateLoadReg L env fuel s).data.average = s.average)
    ∧ ((growLoop env fuel 0 s.cbPerfData s.pPerfData).outcome
          = LoopOutcome.fetched ERROR_SUCCESS →
        (∀ k, counterAt L (growLoop env fuel 0 s.cbPerfData s.pPerfData).pPerfData k
            < pData L (growLoop env fuel 0 s.cbPerfData s.pPerfData).pPerfData →
          indexAt L (growLoop env fuel 0 s.cbPerfData s.pPerfData).pPerfData k ≠ 44) →
        (CalculateLoadReg L env fuel s).data.average = s.average)
    ∧ ((growLoop env fuel 0 s.cbPerfData s.pPerfData).outcome
          = LoopOutcome.fetched ERROR_SUCCESS →
        (∃ k, k < fuel
          ∧ counterAt L (growLoop env fuel 0 s.cbPerfData s.pPerfData).pPerfData k
            < pData L (growLoop env fuel 0 s.cbPerfData s.pPerfData).pPerfData
          ∧ indexAt L (growLoop env fuel 0 s.cbPerfData s.pPerfData).pPerfData k = 44) →
        ∃ r, (CalculateLoadReg L env fuel s).outcome = TickOutcome.sampled r
          ∧ (CalculateLoadReg L env fuel s).data.average 0
              = calc_loadf (s.average 0) LOADAVG_FACTOR_1F r
          ∧ (CalculateLoadReg L env fuel s).data.average 1
              = calc_loadf (s.average 1) LOADAVG_FACTOR_5F r
          ∧ (CalculateLoadReg L env fuel s).data.average 2
              = calc_loadf (s.average 2) LOADAVG_FACTOR_15F r)
    ∧ ((CalculateLoadReg L env fuel s).data.average = s.average
        ∨ ∃ r, (CalculateLoadReg L env fuel s).outcome = TickOutcome.sampled r
          ∧ (CalculateLoadReg L env fuel s).data.average 0
              = calc_loadf (s.average 0) LOADAVG_FACTOR_1F r
          ∧ (CalculateLoadReg L env fuel s).data.average 1
              = calc_loadf (s.average 1) LOADAVG_FACTOR_5F r
          ∧ (CalculateLoadReg L env fuel s).data.average 2
              = calc_loadf (s.average 2) LOADAVG_FACTOR_15F r) := by
  have hfound : ∀ v, (growLoop env fuel 0 s.cbPerfData s.pPerfData).outcome
        = LoopOutcome.fetched ERROR_SUCCESS →
      findCounter L (growLoop env fuel 0 s.cbPerfData s.pPerfData).pPerfData fuel
        = Lookup.found v →
      ∃ r, (CalculateLoadReg L env fuel s).outcome = TickOutcome.sampled r
          ∧ (CalculateLoadReg L env fuel s).data.average 0
              = calc_loadf (s.average 0) LOADAVG_FACTOR_1F r
          ∧ (CalculateLoadReg L env fuel s).data.average 1
              = calc_loadf (s.average 1) LOADAVG_FACTOR_5F r
          ∧ (CalculateLoadReg L env fuel s).data.average 2
              = calc_loadf (s.average 2) LOADAVG_FACTOR_15F r := by
    intro v hg hv
    rw [tick_of_found L env fuel s hg v hv]
    exact ⟨v, rfl, calc_load_average _ v⟩
  refine ⟨fun st hg hst => ?_, fun hg => ?_, fun hg hno => ?_, fun hg hex => ?_, ?_⟩
  · rw [tick_of_failed L env fuel s st hg hst]
  · rw [tick_of_reallocFailed L env fuel s hg]
  · rcases hv : findCounter L (growLoop env fuel 0 s.cbPerfData s.pPerfData).pPerfData
      fuel with v | _ | _
    · obtain ⟨k, _, hk, h44, _, _⟩ := findCounter_found_inv L _ fuel v hv
      exact absurd h44 (hno k hk)
    · rw [tick_of_notFound L env fuel s hg hv]
    · rw [tick_of_lookupOutOfFuel L env fuel s hg hv]
  · obtain ⟨k, hfuel, hk, h44⟩ := hex
    have hP : ∃ j, indexAt L (growLoop env fuel 0 s.cbPerfData s.pPerfData).pPerfData j
        = 44 := ⟨k, h44⟩
    have hle : Nat.find hP ≤ k := Nat.find_min' hP h44
    have hk2 : counterAt L (growLoop env fuel 0 s.cbPerfData s.pPerfData).pPerfData
        (Nat.find hP)
        < pData L (growLoop env fuel 0 s.cbPerfData s.pPerfData).pPerfData := by
      refine lt_of_le_of_lt ?_ hk
      exact Nat.add_le_add_left (Nat.mul_le_mul_right _ hle) _
    exact hfound _ hg (findCounter_found L _ (Nat.find hP) fuel (by omega) hk2
      (Nat.find_spec hP) (fun j hj => Nat.find_min hP hj))
  · rcases hg : (growLoop env fuel 0 s.cbPerfData s.pPerfData).outcome with st | _ | _
    · by_cases hst : st = ERROR_SUCCESS
      · subst hst
        rcases hv : findCounter L (growLoop env fuel 0 s.cbPerfData s.pPerfData).pPerfData
          fuel with v | _ | _
        · exact Or.inr (hfound v hg hv)
        · rw [tick_of_notFound L env fuel s hg hv]; exact Or.inl rfl
        · rw [tick_of_lookupOutOfFuel L env fuel s hg hv]; exact Or.inl rfl
      · rw [tick_of_failed L env fuel s st hg hst]; exact Or.inl rfl
    · rw [tick_of_reallocFailed L env fuel s hg]; exact Or.inl rfl
    · rw [tick_of_outOfFuel L env fuel s hg]; exact Or.inl rfl

theorem snapshotNo44_table (k : ℕ)
    (hk : counterAt winperf snapshotNo44 k < pData winperf snapshotNo44) :
    indexAt winperf snapshotNo44 k ≠ 44 := by
  have h1 : pData winperf snapshotNo44 = 168 := by decide
  have h2 : pCounter winperf snapshotNo44 = 48 := by decide
  have h3 : k < 3 := by
    rw [h1, counterAt, h2] at hk
    have : winperf.sizeofCounterDefinition = 40 := rfl
    rw [this] at hk
    omega
  interval_cases k <;> decide

theorem tick_all_or_none_witness :
    (CalculateLoadReg winperf (envScript [5] [] snapshot44) 2 exampleData).data.average
        = exampleData.average
    ∧ (CalculateLoadReg winperf (envScript [ERROR_MORE_DATA] [false] snapshot44) 2
          exampleData).data.average = exampleData.average
    ∧ (CalculateLoadReg winperf (envNeeds 944 snapshotNo44) 4 exampleData).data.average
        = exampleData.average
    ∧ ∃ r, (CalculateLoadReg winperf (envNeeds 944 snapshot44) 2 exampleData).outcome
          = TickOutcome.sampled r
        ∧ (CalculateLoadReg winperf (envNeeds 944 snapshot44) 2 exampleData).data.average 0
            = calc_loadf (exampleData.average 0) LOADAVG_FACTOR_1F r
        ∧ (CalculateLoadReg winperf (envNeeds 944 snapshot44) 2 exampleData).data.average 1
            = calc_loadf (exampleData.average 1) LOADAVG_FACTOR_5F r
        ∧ (CalculateLoadReg winperf (envNeeds 944 snapshot44) 2 exampleData).data.average 2
            = calc_loadf (exampleData.average 2) LOADAVG_FACTOR_15F r :=
  ⟨(tick_all_or_none winperf (envScript [5] [] snapshot44) 2 exampleData).1 5
      (by decide) (by decide),
    (tick_all_or_none winperf (envScript [ERROR_MORE_DATA] [false] snapshot44) 2
      exampleData).2.1 (by decide),
    (tick_all_or_none winperf (envNeeds 944 snapshotNo44) 4 exampleData).2.2.1
      (by decide) (fun k hk => snapshotNo44_table k hk),
    (tick_all_or_none winperf (envNeeds 944 snapshot44) 2 exampleData).2.2.2.1
      (by decide) ⟨1, by decide, by decide, by decide⟩⟩

/-! ## The claims on the buffer capacity -/

/-- C6: when the fetch reports `ERROR_MORE_DATA` exactly while the capacity is
below `n` and no reallocation fails, and `k` is the least number with
`n ≤ c * 2 ^ k`, with `c * 2 ^ k < 2 ^ 32`, then from the capacity `c` the
grow-and-retry loop of a tick ends (for every bound above `k` on its passes)
by a fetch that does not report `ERROR_MORE_DATA`, after the `k` doublings
`c * 2, ..., c * 2 ^ k`, with `cbPerfData = c * 2 ^ k`, which is at least `n`. -/
theorem grow_terminates (L : WinperfLayout) (env : Env) (n k fuel : ℕ)
    (s : LOADAVG_DATA)
    (hfetch : ∀ (i cb : ℕ) (p : Mem),
      (env.RegQueryValueExW i cb p).1 = ERROR_MORE_DATA ↔ cb < n)
    (hre : ∀ i sz : ℕ, env.realloc i sz = true)
    (hn : n ≤ s.cbPerfData * 2 ^ k)
    (hleast : ∀ j < k, s.cbPerfData * 2 ^ j < n)
    (hov : s.cbPerfData * 2 ^ k < 2 ^ 32)
    (hfuel : k < fuel) :
    (∃ st, (growLoop env fuel 0 s.cbPerfData s.pPerfData).outcome
          = LoopOutcome.fetched st ∧ st ≠ ERROR_MORE_DATA)
    ∧ (CalculateLoadReg L env fuel s).trace
        = (List.range k).map (fun j => s.cbPerfData * 2 ^ (j + 1))
    ∧ (CalculateLoadReg L env fuel s).trace.length = k
    ∧ (CalculateLoadReg L env fuel s).data.cbPerfData = s.cbPerfData * 2 ^ k
    ∧ n ≤ (CalculateLoadReg L env fuel s).data.cbPerfData := by
  obtain ⟨h1, h2, h3⟩ := growLoop_exact env n hfetch hre k s.cbPerfData 0 s.pPerfData
    fuel hfuel hn hleast hov
  obtain ⟨t1, t2⟩ := tick_cbPerfData L env fuel s
  rw [t1, t2, h2, h3]
  exact ⟨h1, rfl, by rw [List.length_map, List.length_range], rfl, hn⟩

theorem grow_terminates_witness :
    (wmainInit snapshot44).cbPerfData = 1024
    ∧ ((CalculateLoadReg winperf (envNeeds 944 snapshot44) 1 (wmainInit snapshot44)).trace
          = []
      ∧ (CalculateLoadReg winperf (envNeeds 944 snapshot44) 1
          (wmainInit snapshot44)).data.cbPerfData = 1024)
    ∧ ((CalculateLoadReg winperf (envNeeds 2000 snapshot44) 2 (wmainInit snapshot44)).trace
          = [2048]
      ∧ (CalculateLoadReg winperf (envNeeds 2000 snapshot44) 2
          (wmainInit snapshot44)).data.cbPerfData = 2048)
    ∧ ((CalculateLoadReg winperf (envNeeds 8000 snapshot44) 4 (wmainInit snapshot44)).trace
          = [2048, 4096, 8192]
      ∧ (CalculateLoadReg winperf (envNeeds 8000 snapshot44) 4
          (wmainInit snapshot44)).data.cbPerfData = 8192) := by
  have h0 := grow_terminates winperf (envNeeds 944 snapshot44) 944 0 1
    (wmainInit snapshot44) (envNeeds_fetch 944 snapshot44) (fun _ _ => rfl)
    (by decide) (by decide) (by decide) (by decide)
  have h1 := grow_terminates winperf (envNeeds 2000 snapshot44) 2000 1 2
    (wmainInit snapshot44) (envNeeds_fetch 2000 snapshot44) (fun _ _ => rfl)
    (by decide) (by decide) (by decide) (by decide)
  have h3 := grow_terminates winperf (envNeeds 8000 snapshot44) 8000 3 4
    (wmainInit snapshot44) (envNeeds_fetch 8000 snapshot44) (fun _ _ => rfl)
    (by decide) (by decide) (by decide) (by decide)
  exact ⟨rfl, ⟨h0.2.1, h0.2.2.2.1⟩, ⟨h1.2.1, h1.2.2.2.1⟩, ⟨h3.2.1, h3.2.2.2.1⟩⟩

theorem tick_capacity_mod (L : WinperfLayout) (env : Env) (fuel : ℕ)
    (s : LOADAVG_DATA) (hc : s.cbPerfData < 2 ^ 32) :
    (CalculateLoadReg L env fuel s).trace
        = (List.range (CalculateLoadReg L env fuel s).trace.length).map
            (fun j => s.cbPerfData * 2 ^ (j + 1) % 2 ^ 32)
    ∧ (CalculateLoadReg L env fuel s).data.cbPerfData
        = s.cbPerfData * 2 ^ (CalculateLoadReg L env fuel s).trace.length % 2 ^ 32
    ∧ (s.cbPerfData * 2 ^ (CalculateLoadReg L env fuel s).trace.length < 2 ^ 32 →
        (CalculateLoadReg L env fuel s).trace
            = (List.range (CalculateLoadReg L env fuel s).trace.length).map
                (fun j => s.cbPerfData * 2 ^ (j + 1))
        ∧ (∀ x ∈ (CalculateLoadReg L env fuel s).trace, s.cbPerfData ≤ x)
        ∧ (CalculateLoadReg L env fuel s).data.cbPerfData
            = s.cbPerfData * 2 ^ (CalculateLoadReg L env fuel s).trace.length
        ∧ s.cbPerfData ≤ (CalculateLoadReg L env fuel s).data.cbPerfData) := by
  obtain ⟨t1, t2⟩ := tick_cbPerfData L env fuel s
  obtain ⟨h1, h2⟩ := growLoop_trace env fuel 0 s.cbPerfData s.pPerfData hc
  rw [t1, t2]
  refine ⟨h1, h2, fun hov => ?_⟩
  have hpow : ∀ j, j < (growLoop env fuel 0 s.cbPerfData s.pPerfData).trace.length →
      s.cbPerfData * 2 ^ (j + 1) % 2 ^ 32 = s.cbPerfData * 2 ^ (j + 1) := by
    intro j hj
    apply Nat.mod_eq_of_lt
    refine lt_of_le_of_lt (Nat.mul_le_mul_left _ ?_) hov
    exact Nat.pow_le_pow_right (by norm_num) hj
  have htrace : (growLoop env fuel 0 s.cbPerfData s.pPerfData).trace
      = (List.range (growLoop env fuel 0 s.cbPerfData s.pPerfData).trace.length).map
          (fun j => s.cbPerfData * 2 ^ (j + 1)) := by
    conv_lhs => rw [h1]
    apply List.map_congr_left
    intro j hj
    exact hpow j (List.mem_range.mp hj)
  have hfin : (growLoop env fuel 0 s.cbPerfData s.pPerfData).cbPerfData
      = s.cbPerfData * 2 ^ (growLoop env fuel 0 s.cbPerfData s.pPerfData).trace.length := by
    rw [h2]; exact Nat.mod_eq_of_lt hov
  refine ⟨htrace, ?_, hfin, ?_⟩
  · intro x hx
    rw [htrace, List.mem_map] at hx
    obtain ⟨j, _, rfl⟩ := hx
    exact Nat.le_mul_of_pos_right _ (by positivity)
  · rw [hfin]
    exact Nat.le_mul_of_pos_right _ (by positivity)

theorem growLoop_steps_le (env : Env) (hzero : ∀ i, env.realloc i 0 = false)
    (fuel : ℕ) :
    ∀ (i e : ℕ) (p : Mem), e ≤ 31 →
      e + (growLoop env fuel i (2 ^ e) p).trace.length ≤ 31 := by
  induction fuel with
  | zero => intro i e p he; rw [growLoop_zero]; exact he
  | succ fuel ih =>
    intro i e p he
    by_cases h : (env.RegQueryValueExW i (2 ^ e) p).1 = ERROR_MORE_DATA
    · cases hr : env.realloc i (2 ^ e * 2 % 2 ^ 32)
      · rw [growLoop_fail env fuel i (2 ^ e) p h hr]; exact he
      · have he31 : e ≠ 31 := by
          rintro rfl
          have h0 : (2 : ℕ) ^ 31 * 2 % 2 ^ 32 = 0 := by norm_num
          rw [h0, hzero] at hr
          exact Bool.noConfusion hr
        have hlt : e + 1 ≤ 31 := by omega
        have hpow : (2 : ℕ) ^ e * 2 % 2 ^ 32 = 2 ^ (e + 1) := by
          rw [← pow_succ]
          exact Nat.mod_eq_of_lt (Nat.pow_lt_pow_right (by norm_num) (by omega))
        rw [growLoop_grow env fuel i (2 ^ e) p h hr, hpow]
        have := ih (i + 1) (e + 1) (env.RegQueryValueExW i (2 ^ e) p).2 hlt
        show e + (Nat.succ _) ≤ 31
        omega
    · rw [growLoop_break env fuel i (2 ^ e) p h]; exact he

theorem doubling_chain (n : ℕ) :
    ∀ c : ℕ, List.Chain (fun a b => b = 2 * a) c
      ((List.range n).map fun j => c * 2 ^ (j + 1)) := by
  induction n with
  | zero => intro c; exact List.Chain.nil
  | succ n ih =>
    intro c
    rw [List.range_succ_eq_map, List.map_cons, List.map_map]
    refine List.Chain.cons (by ring) ?_
    have hmap : List.map ((fun j => c * 2 ^ (j + 1)) ∘ Nat.succ) (List.range n)
        = List.map (fun j => c * 2 ^ (0 + 1) * 2 ^ (j + 1)) (List.range n) := by
      apply List.map_congr_left
      intro j _
      show c * 2 ^ (j + 1 + 1) = c * 2 ^ (0 + 1) * 2 ^ (j + 1)
      ring
    rw [hmap]
    exact ih (c * 2 ^ (0 + 1))

/-- C7: the recorded capacity `cbPerfData` never shrinks. The capacities the
program holds are the powers `2 ^ e` with `e ≤ 31`: `wmain` stores
`1024 = 2 ^ 10`, and a tick started from such a capacity ends with such a
capacity. For every such capacity before a tick and every sequence of fetch
and reallocation outcomes during it, a reallocation to the size 0 returning no
block, every value assigned to `cbPerfData` is exactly twice the value before
it, and the capacity after each growth step and after the tick is greater than
or equal to the capacity before. -/
theorem capacity_never_shrinks (L : WinperfLayout) (env : Env) (fuel : ℕ)
    (s : LOADAVG_DATA) (e : ℕ) (he : e ≤ 31) (hc : s.cbPerfData = 2 ^ e)
    (hzero : ∀ i, env.realloc i 0 = false) :
    List.Chain (fun a b => b = 2 * a) s.cbPerfData (CalculateLoadReg L env fuel s).trace
    ∧ (CalculateLoadReg L env fuel s).trace
        = (List.range (CalculateLoadReg L env fuel s).trace.length).map
            (fun j => s.cbPerfData * 2 ^ (j + 1))
    ∧ (∀ x ∈ (CalculateLoadReg L env fuel s).trace, s.cbPerfData ≤ x)
    ∧ (CalculateLoadReg L env fuel s).data.cbPerfData
        = s.cbPerfData * 2 ^ (CalculateLoadReg L env fuel s).trace.length
    ∧ s.cbPerfData ≤ (CalculateLoadReg L env fuel s).data.cbPerfData
    ∧ (∃ e2, e2 ≤ 31 ∧ (CalculateLoadReg L env fuel s).data.cbPerfData = 2 ^ e2)
    ∧ (∀ m : Mem, (wmainInit m).cbPerfData = 2 ^ 10) := by
  have hlen : e + (CalculateLoadReg L env fuel s).trace.length ≤ 31 := by
    rw [(tick_cbPerfData L env fuel s).2, hc]
    exact growLoop_steps_le env hzero fuel 0 e s.pPerfData he
  have hov : s.cbPerfData * 2 ^ (CalculateLoadReg L env fuel s).trace.length < 2 ^ 32 := by
    rw [hc, ← pow_add]
    exact Nat.pow_lt_pow_right (by norm_num) (by omega)
  have hclt : s.cbPerfData < 2 ^ 32 := by
    rw [hc]; exact Nat.pow_lt_pow_right (by norm_num) (by omega)
  obtain ⟨h1, h2, h3, h4⟩ := (tick_capacity_mod L env fuel s hclt).2.2 hov
  refine ⟨?_, h1, h2, h3, h4, ⟨e + (CalculateLoadReg L env fuel s).trace.length, hlen, ?_⟩,
    fun _ => rfl⟩
  · have hch := doubling_chain (CalculateLoadReg L env fuel s).trace.length s.cbPerfData
    rw [← h1] at hch
    exact hch
  · rw [h3, hc, pow_add]

theorem capacity_never_shrinks_witness :
    ((wmainInit snapshot44).cbPerfData = 2 ^ 10
      ∧ (CalculateLoadReg winperf (envGrow 8000 snapshot44) 4 (wmainInit snapshot44)).trace
          = [2048, 4096, 8192]
      ∧ (CalculateLoadReg winperf (envGrow 8000 snapshot44) 4
          (wmainInit snapshot44)).data.cbPerfData = 8192
      ∧ (wmainInit snapshot44).cbPerfData
          ≤ (CalculateLoadReg winperf (envGrow 8000 snapshot44) 4
              (wmainInit snapshot44)).data.cbPerfData)
    ∧ ((CalculateLoadReg winperf (envGrow (2 ^ 32) snapshot44) 4
          ⟨fun _ => 0, 2 ^ 31, snapshot44⟩).outcome = TickOutcome.reallocFailed
      ∧ (CalculateLoadReg winperf (envGrow (2 ^ 32) snapshot44) 4
          ⟨fun _ => 0, 2 ^ 31, snapshot44⟩).trace = []
      ∧ (CalculateLoadReg winperf (envGrow (2 ^ 32) snapshot44) 4
          ⟨fun _ => 0, 2 ^ 31, snapshot44⟩).data.cbPerfData = 2 ^ 31) := by
  have h := capacity_never_shrinks winperf (envGrow 8000 snapshot44) 4
    (wmainInit snapshot44) 10 (by decide) rfl
    (fun _ => by simp [envGrow])
  have hlen : (CalculateLoadReg winperf (envGrow 8000 snapshot44) 4
      (wmainInit snapshot44)).trace.length = 3 := by decide
  have g := capacity_never_shrinks winperf (envGrow (2 ^ 32) snapshot44) 4
    ⟨fun _ => 0, 2 ^ 31, snapshot44⟩ 31 (by decide) rfl
    (fun _ => by simp [envGrow])
  have glen : (CalculateLoadReg winperf (envGrow (2 ^ 32) snapshot44) 4
      ⟨fun _ => 0, 2 ^ 31, snapshot44⟩).trace.length = 0 := by decide
  have h2 := h.2.1
  have h4 := h.2.2.2.1
  have g2 := g.2.1
  have g4 := g.2.2.2.1
  rw [hlen] at h2 h4
  rw [glen] at g2 g4
  exact ⟨⟨rfl, h2, h4, h.2.2.2.2.1⟩, by decide, g2, by simpa using g4⟩

end LoadAvg
